import Mathlib

/-!
Shallow embedding of reframe/core/containers.py: the abstract
ContainerPlatform attribute surface, the four backends (Docker, Sarus,
Shifter, Singularity) with their emit_prepare_commands and launch_command
routines, the validate operation, and the ContainerPlatformField resolver.

Python attributes typed as str-or-None become Option String; attribute
states are records; f-string interpolation of a possibly-None attribute is
modelled by pyStr (Python renders None as the text "None"); Python
truthiness of a str-or-None attribute is pyTruthy (None and the empty
string are falsy); list truthiness is non-emptiness.  Code paths that can
raise are modelled with Option or Except.
-/

namespace Containers

/-- Python str() rendering of a str-or-None attribute as it appears inside
an f-string: None is rendered as the text "None". -/
def pyStr : Option String → String
  | none => "None"
  | some s => s

/-- Python truthiness of a str-or-None attribute: None and the empty
string are falsy, every other string is truthy. -/
def pyTruthy : Option String → Bool
  | none => false
  | some s => !s.isEmpty

/-- The ContainerError exception type (external collaborator from
reframe.core.exceptions, specified only at its interface: it carries a
message). -/
structure ContainerError where
  message : String
deriving DecidableEq

/-- Shared attribute surface of the abstract ContainerPlatform class.
image and command are TypedField(str, NoneType); commands and options are
lists of strings; mount_points is a list of (host, container) pairs;
workdir is TypedField(str, NoneType); pull_image is a bool. -/
structure ContainerPlatform where
  image : Option String
  command : Option String
  commands : List String
  pull_image : Bool
  mount_points : List (String × String)
  options : List String
  workdir : Option String
deriving DecidableEq

/-- The class attribute RFM_STAGEDIR of ContainerPlatform. -/
def ContainerPlatform.RFM_STAGEDIR : String := "/rfm_workdir"

/-- ContainerPlatform.__init__: the shared default attribute values. -/
def ContainerPlatform.init : ContainerPlatform :=
  { image := none
    command := none
    commands := []
    workdir := some ContainerPlatform.RFM_STAGEDIR
    mount_points := []
    options := []
    pull_image := true }

/-- ContainerPlatform.validate: raises ContainerError with the message
"no image specified" when image is None, otherwise returns (and touches
no attribute). -/
def ContainerPlatform.validate (self : ContainerPlatform) :
    Except ContainerError Unit :=
  match self.image with
  | none => Except.error (ContainerError.mk "no image specified")
  | some _ => Except.ok ()

/-- The Docker backend: no attributes beyond the shared surface. -/
structure Docker extends ContainerPlatform
deriving DecidableEq

/-- Docker.__init__ delegates to ContainerPlatform.__init__. -/
def Docker.init : Docker := { toContainerPlatform := ContainerPlatform.init }

/-- Docker.emit_prepare_commands. -/
def Docker.emit_prepare_commands (self : Docker) : List String :=
  if self.pull_image then ["docker pull " ++ pyStr self.image] else []

/-- Docker.launch_command.  The source also binds a local run_cmd via
percent-formatting that is never used afterwards; that dead local is
omitted.  The super().launch_command() call hits an abstract method with
an empty body and has no effect. -/
def Docker.launch_command (self : Docker) : String :=
  let run_opts := self.mount_points.map
    (fun mp => "-v \"" ++ mp.1 ++ "\":\"" ++ mp.2 ++ "\"")
  let run_opts := run_opts ++ self.options
  if pyTruthy self.command then
    "docker run --rm " ++ String.intercalate " " run_opts ++ " " ++
      pyStr self.image ++ " " ++ pyStr self.command
  else if !self.commands.isEmpty then
    "docker run --rm " ++ String.intercalate " " run_opts ++ " " ++
      pyStr self.image ++ " bash -c \x27cd " ++ pyStr self.workdir ++
      "; " ++ String.intercalate "; " self.commands ++ "\x27"
  else
    "docker run --rm " ++ String.intercalate " " run_opts ++ " " ++
      pyStr self.image

/-- Python str.startswith: the second string is a character-wise prefix
of the first, by structural recursion over the character lists. -/
def strStartsWith (s p : String) : Bool :=
  p.data.isPrefixOf s.data

/-- The Sarus backend adds the with_mpi flag. -/
structure Sarus extends ContainerPlatform where
  with_mpi : Bool
deriving DecidableEq

/-- Sarus.__init__: shared defaults plus with_mpi = False. -/
def Sarus.init : Sarus :=
  { toContainerPlatform := ContainerPlatform.init, with_mpi := false }

/-- Sarus.emit_prepare_commands.  The source condition is
"not self.pull_image or self.image.startswith(load-slash)" with Python
short-circuit evaluation: when pull_image is True and image is None the
startswith attribute access raises, modelled as none. -/
def Sarus.emit_prepare_commands (self : Sarus) : Option (List String) :=
  if !self.pull_image then
    some []
  else
    match self.image with
    | none => none
    | some img =>
      if strStartsWith img "load/" then some []
      else some ["sarus pull " ++ img]

/-- Sarus.launch_command. -/
def Sarus.launch_command (self : Sarus) : String :=
  let run_opts := self.mount_points.map
    (fun mp => "--mount=type=bind,source=\"" ++ mp.1 ++
      "\",destination=\"" ++ mp.2 ++ "\"")
  let run_opts := if self.with_mpi then run_opts ++ ["--mpi"] else run_opts
  let run_opts := run_opts ++ self.options
  if pyTruthy self.command then
    "sarus run " ++ String.intercalate " " run_opts ++ " " ++
      pyStr self.image ++ " " ++ pyStr self.command
  else if !self.commands.isEmpty then
    "sarus run " ++ String.intercalate " " run_opts ++ " " ++
      pyStr self.image ++ " bash -c \x27cd " ++ pyStr self.workdir ++
      "; " ++ String.intercalate "; " self.commands ++ "\x27"
  else
    "sarus run " ++ String.intercalate " " run_opts ++ " " ++
      pyStr self.image

/-- The Shifter backend adds the with_mpi flag. -/
structure Shifter extends ContainerPlatform where
  with_mpi : Bool
deriving DecidableEq

/-- Shifter.__init__: shared defaults plus with_mpi = False. -/
def Shifter.init : Shifter :=
  { toContainerPlatform := ContainerPlatform.init, with_mpi := false }

/-- Shifter.emit_prepare_commands, same structure as Sarus. -/
def Shifter.emit_prepare_commands (self : Shifter) : Option (List String) :=
  if !self.pull_image then
    some []
  else
    match self.image with
    | none => none
    | some img =>
      if strStartsWith img "load/" then some []
      else some ["shifter pull " ++ img]

/-- Shifter.launch_command. -/
def Shifter.launch_command (self : Shifter) : String :=
  let run_opts := self.mount_points.map
    (fun mp => "--mount=type=bind,source=\"" ++ mp.1 ++
      "\",destination=\"" ++ mp.2 ++ "\"")
  let run_opts := if self.with_mpi then run_opts ++ ["--mpi"] else run_opts
  let run_opts := run_opts ++ self.options
  if pyTruthy self.command then
    "shifter run " ++ String.intercalate " " run_opts ++ " " ++
      pyStr self.image ++ " " ++ pyStr self.command
  else if !self.commands.isEmpty then
    "shifter run " ++ String.intercalate " " run_opts ++ " " ++
      pyStr self.image ++ " bash -c \x27cd " ++ pyStr self.workdir ++
      "; " ++ String.intercalate "; " self.commands ++ "\x27"
  else
    "shifter run " ++ String.intercalate " " run_opts ++ " " ++
      pyStr self.image

/-- The Singularity backend adds the with_cuda flag. -/
structure Singularity extends ContainerPlatform where
  with_cuda : Bool
deriving DecidableEq

/-- Singularity.__init__: shared defaults plus with_cuda = False. -/
def Singularity.init : Singularity :=
  { toContainerPlatform := ContainerPlatform.init, with_cuda := false }

/-- Singularity.emit_prepare_commands returns the empty list for every
attribute state. -/
def Singularity.emit_prepare_commands (_self : Singularity) : List String :=
  []

/-- Singularity.launch_command: exec in the command and commands branches,
run in the default branch. -/
def Singularity.launch_command (self : Singularity) : String :=
  let run_opts := self.mount_points.map
    (fun mp => "-B\"" ++ mp.1 ++ ":" ++ mp.2 ++ "\"")
  let run_opts := if self.with_cuda then run_opts ++ ["--nv"] else run_opts
  let run_opts := run_opts ++ self.options
  if pyTruthy self.command then
    "singularity exec " ++ String.intercalate " " run_opts ++ " " ++
      pyStr self.image ++ " " ++ pyStr self.command
  else if !self.commands.isEmpty then
    "singularity exec " ++ String.intercalate " " run_opts ++ " " ++
      pyStr self.image ++ " bash -c \x27cd " ++ pyStr self.workdir ++
      "; " ++ String.intercalate "; " self.commands ++ "\x27"
  else
    "singularity run " ++ String.intercalate " " run_opts ++ " " ++
      pyStr self.image

/-- A resolved container platform value, as held by a
ContainerPlatformField after assignment. -/
inductive PlatformInstance where
  | docker (p : Docker)
  | sarus (p : Sarus)
  | shifter (p : Shifter)
  | singularity (p : Singularity)
deriving DecidableEq

/-- The names bound in the module global namespace of containers.py: the
four imports bound at the top of the module, the five classes defined in
it, and the implicit module dunder globals that Python places in every
module namespace.  globals()[value] succeeds exactly on these names. -/
def moduleGlobals : List String :=
  ["abc", "warnings", "fields", "typ", "ContainerError",
   "ContainerPlatform", "Docker", "Sarus", "Shifter", "Singularity",
   "ContainerPlatformField",
   "__name__", "__doc__", "__package__", "__loader__", "__spec__",
   "__file__", "__cached__", "__builtins__"]

/-- Failure modes of ContainerPlatformField.__set__. -/
inductive SetPlatformError where
  | invalidValue (msg : String)
  | externalTypeError
deriving DecidableEq

/-- The backend freshly constructed for a backend class name, none for
any other string. -/
def backendFromName (value : String) : Option PlatformInstance :=
  if value = "Docker" then some (PlatformInstance.docker Docker.init)
  else if value = "Sarus" then some (PlatformInstance.sarus Sarus.init)
  else if value = "Shifter" then some (PlatformInstance.shifter Shifter.init)
  else if value = "Singularity" then
    some (PlatformInstance.singularity Singularity.init)
  else none

/-- ContainerPlatformField.__set__ on a string value.  The source looks
the string up in globals() and calls the result; only a KeyError is
converted into the ValueError "unknown container platform: ...".  A
backend class name therefore yields a freshly constructed default
instance.  A string naming any other module global does not raise
KeyError: the looked-up object is a module, an abstract class,
a non-platform class or a plain string, so the call or the subsequent
type check fails with a TypeError-kind error instead.  Modelled from the
spec for the part outside src: the typed-attribute framework
(fields.TypedField.__set__) rejects any non-ContainerPlatform value, per
the spec sections on the external typed-attribute framework and type
violations. -/
def ContainerPlatformField.set_from_string (value : String) :
    Except SetPlatformError PlatformInstance :=
  match backendFromName value with
  | some p => Except.ok p
  | none =>
    if value ∈ moduleGlobals then
      Except.error SetPlatformError.externalTypeError
    else
      Except.error (SetPlatformError.invalidValue
        ("unknown container platform: " ++ value))

/-- ContainerPlatformField.__set__ on an already-constructed backend
instance: the string branch is skipped and the external type check
accepts any ContainerPlatform instance unchanged. -/
def ContainerPlatformField.set_from_instance (p : PlatformInstance) :
    Except SetPlatformError PlatformInstance :=
  Except.ok p

/-- The Docker mount flag syntax, per mount point pair. -/
def dockerMountFlag (mp : String × String) : String :=
  "-v \"" ++ mp.1 ++ "\":\"" ++ mp.2 ++ "\""

/-- The Sarus and Shifter mount flag syntax, per mount point pair. -/
def sarusMountFlag (mp : String × String) : String :=
  "--mount=type=bind,source=\"" ++ mp.1 ++ "\",destination=\"" ++ mp.2 ++ "\""

/-- The Singularity mount flag syntax, per mount point pair. -/
def singularityMountFlag (mp : String × String) : String :=
  "-B\"" ++ mp.1 ++ ":" ++ mp.2 ++ "\""

/-- The Docker launch command with the joined run options abstracted out:
the three-way branch structure around an arbitrary options string. -/
def Docker.assemble (self : Docker) (opts : String) : String :=
  if pyTruthy self.command then
    "docker run --rm " ++ opts ++ " " ++ pyStr self.image ++ " " ++
      pyStr self.command
  else if !self.commands.isEmpty then
    "docker run --rm " ++ opts ++ " " ++ pyStr self.image ++
      " bash -c \x27cd " ++ pyStr self.workdir ++ "; " ++
      String.intercalate "; " self.commands ++ "\x27"
  else
    "docker run --rm " ++ opts ++ " " ++ pyStr self.image

/-- The Sarus launch command with the joined run options abstracted out. -/
def Sarus.assemble (self : Sarus) (opts : String) : String :=
  if pyTruthy self.command then
    "sarus run " ++ opts ++ " " ++ pyStr self.image ++ " " ++
      pyStr self.command
  else if !self.commands.isEmpty then
    "sarus run " ++ opts ++ " " ++ pyStr self.image ++
      " bash -c \x27cd " ++ pyStr self.workdir ++ "; " ++
      String.intercalate "; " self.commands ++ "\x27"
  else
    "sarus run " ++ opts ++ " " ++ pyStr self.image

/-- The Shifter launch command with the joined run options abstracted out. -/
def Shifter.assemble (self : Shifter) (opts : String) : String :=
  if pyTruthy self.command then
    "shifter run " ++ opts ++ " " ++ pyStr self.image ++ " " ++
      pyStr self.command
  else if !self.commands.isEmpty then
    "shifter run " ++ opts ++ " " ++ pyStr self.image ++
      " bash -c \x27cd " ++ pyStr self.workdir ++ "; " ++
      String.intercalate "; " self.commands ++ "\x27"
  else
    "shifter run " ++ opts ++ " " ++ pyStr self.image

/-- The Singularity launch command with the joined run options abstracted
out. -/
def Singularity.assemble (self : Singularity) (opts : String) : String :=
  if pyTruthy self.command then
    "singularity exec " ++ opts ++ " " ++ pyStr self.image ++ " " ++
      pyStr self.command
  else if !self.commands.isEmpty then
    "singularity exec " ++ opts ++ " " ++ pyStr self.image ++
      " bash -c \x27cd " ++ pyStr self.workdir ++ "; " ++
      String.intercalate "; " self.commands ++ "\x27"
  else
    "singularity run " ++ opts ++ " " ++ pyStr self.image

/-- The string s starts with the prefix p. -/
def hasPrefixStr (p s : String) : Prop :=
  ∃ r, s = p ++ r

theorem hasPrefixStr_append (p x t : String) (h : hasPrefixStr p x) :
    hasPrefixStr p (x ++ t) := by
  obtain ⟨r, rfl⟩ := h
  exact ⟨r ++ t, String.append_assoc p r t⟩

theorem hasPrefixStr_base (p r : String) : hasPrefixStr p (p ++ r) :=
  ⟨r, rfl⟩

theorem ne_of_length_ne {s t : String} (h : s.length ≠ t.length) :
    s ≠ t :=
  fun he => h (he ▸ rfl)

theorem sarusMountFlag_ne_mpi (mp : String × String) :
    sarusMountFlag mp ≠ "--mpi" := by
  apply ne_of_length_ne
  have h1 : ("--mount=type=bind,source=\"" : String).length = 26 := rfl
  have h2 : ("\",destination=\"" : String).length = 15 := rfl
  have h3 : ("\"" : String).length = 1 := rfl
  have h4 : ("--mpi" : String).length = 5 := rfl
  simp only [sarusMountFlag, String.length_append, h1, h2, h3, h4]
  omega

theorem singularityMountFlag_ne_nv (mp : String × String) :
    singularityMountFlag mp ≠ "--nv" := by
  apply ne_of_length_ne
  have h1 : ("-B\"" : String).length = 3 := rfl
  have h2 : (":" : String).length = 1 := rfl
  have h3 : ("\"" : String).length = 1 := rfl
  have h4 : ("--nv" : String).length = 4 := rfl
  simp only [singularityMountFlag, String.length_append, h1, h2, h3, h4]
  omega

/-- C1 (amended): for every backend, when command is set to a non-empty
(truthy) string, launch_command uses command as the payload and its result
is independent of commands; but the branch is decided by Python
truthiness, so when command is the empty string the command case is NOT
taken and commands is not ignored. -/
theorem claim_C1 :
    (∀ (st : Docker) (cs : List String), pyTruthy st.command = true →
      Docker.launch_command { st with commands := cs } =
        Docker.launch_command st ∧
      Docker.launch_command st =
        "docker run --rm " ++ String.intercalate " "
            (st.mount_points.map dockerMountFlag ++ st.options) ++
          " " ++ pyStr st.image ++ " " ++ pyStr st.command) ∧
    (∀ (st : Sarus) (cs : List String), pyTruthy st.command = true →
      Sarus.launch_command { st with commands := cs } =
        Sarus.launch_command st ∧
      Sarus.launch_command st =
        "sarus run " ++ String.intercalate " "
            (st.mount_points.map sarusMountFlag ++
              (if st.with_mpi then ["--mpi"] else []) ++ st.options) ++
          " " ++ pyStr st.image ++ " " ++ pyStr st.command) ∧
    (∀ (st : Shifter) (cs : List String), pyTruthy st.command = true →
      Shifter.launch_command { st with commands := cs } =
        Shifter.launch_command st ∧
      Shifter.launch_command st =
        "shifter run " ++ String.intercalate " "
            (st.mount_points.map sarusMountFlag ++
              (if st.with_mpi then ["--mpi"] else []) ++ st.options) ++
          " " ++ pyStr st.image ++ " " ++ pyStr st.command) ∧
    (∀ (st : Singularity) (cs : List String), pyTruthy st.command = true →
      Singularity.launch_command { st with commands := cs } =
        Singularity.launch_command st ∧
      Singularity.launch_command st =
        "singularity exec " ++ String.intercalate " "
            (st.mount_points.map singularityMountFlag ++
              (if st.with_cuda then ["--nv"] else []) ++ st.options) ++
          " " ++ pyStr st.image ++ " " ++ pyStr st.command) ∧
    pyTruthy (some "") = false := by
  refine ⟨?_, ?_, ?_, ?_, rfl⟩
  · intro st cs h
    constructor
    · simp [Docker.launch_command, h]
    · simp only [Docker.launch_command, h, if_true]
      rfl
  · intro st cs h
    constructor
    · cases hm : st.with_mpi <;> simp [Sarus.launch_command, h, hm]
    · cases hm : st.with_mpi <;>
        simp only [Sarus.launch_command, h, hm, if_true] <;>
        simp <;> rfl
  · intro st cs h
    constructor
    · cases hm : st.with_mpi <;> simp [Shifter.launch_command, h, hm]
    · cases hm : st.with_mpi <;>
        simp only [Shifter.launch_command, h, hm, if_true] <;>
        simp <;> rfl
  · intro st cs h
    constructor
    · cases hm : st.with_cuda <;> simp [Singularity.launch_command, h, hm]
    · cases hm : st.with_cuda <;>
        simp only [Singularity.launch_command, h, hm, if_true] <;>
        simp <;> rfl

/-- C1 counterexample: with command set to the empty string, changing the
contents of commands changes the Docker launch command, so commands is
not ignored when command is set but empty. -/
theorem claim_C1_counterexample :
    Docker.launch_command
        { Docker.init with command := some "", commands := ["ls"] } ≠
      Docker.launch_command
        { Docker.init with command := some "", commands := [] } := by
  decide

/-- C1 witness: the theorem applied at a concrete truthy command. -/
theorem claim_C1_witness :
    Docker.launch_command
        { { Docker.init with image := some "img", command := some "ls" } with
            commands := ["a", "b"] } =
      Docker.launch_command
        { Docker.init with image := some "img", command := some "ls" } :=
  (claim_C1.1 { Docker.init with image := some "img", command := some "ls" }
    ["a", "b"] (by decide)).1

/-- C2 (amended): prepare commands are empty exactly when pull_image is
false (Docker, Sarus, Shifter), or the image starts with load/ (Sarus,
Shifter, image set), or the backend is Singularity; in every other state
with image set they are the singleton pull command.  For Sarus and
Shifter with image unset and pull_image true, the call fails instead of
returning any sequence. -/
theorem claim_C2 :
    (∀ st : Docker,
      (Docker.emit_prepare_commands st = [] ↔ st.pull_image = false) ∧
      (st.pull_image = true →
        Docker.emit_prepare_commands st =
          ["docker pull " ++ pyStr st.image])) ∧
    (∀ (st : Sarus) (img : String), st.image = some img →
      (Sarus.emit_prepare_commands st = some [] ↔
        (st.pull_image = false ∨ strStartsWith img "load/" = true)) ∧
      (st.pull_image = true → strStartsWith img "load/" = false →
        Sarus.emit_prepare_commands st = some ["sarus pull " ++ img])) ∧
    (∀ (st : Shifter) (img : String), st.image = some img →
      (Shifter.emit_prepare_commands st = some [] ↔
        (st.pull_image = false ∨ strStartsWith img "load/" = true)) ∧
      (st.pull_image = true → strStartsWith img "load/" = false →
        Shifter.emit_prepare_commands st = some ["shifter pull " ++ img])) ∧
    (∀ st : Singularity, Singularity.emit_prepare_commands st = []) := by
  refine ⟨?_, ?_, ?_, fun st => rfl⟩
  · intro st
    constructor
    · cases hp : st.pull_image <;> simp [Docker.emit_prepare_commands, hp]
    · intro hp
      simp [Docker.emit_prepare_commands, hp]
  · intro st img h
    constructor
    · cases hp : st.pull_image
      · simp [Sarus.emit_prepare_commands, hp]
      · cases hs : strStartsWith img "load/" <;>
          simp [Sarus.emit_prepare_commands, hp, h, hs]
    · intro hp hs
      simp [Sarus.emit_prepare_commands, hp, h, hs]
  · intro st img h
    constructor
    · cases hp : st.pull_image
      · simp [Shifter.emit_prepare_commands, hp]
      · cases hs : strStartsWith img "load/" <;>
          simp [Shifter.emit_prepare_commands, hp, h, hs]
    · intro hp hs
      simp [Shifter.emit_prepare_commands, hp, h, hs]

/-- C2 counterexample: at the default Sarus state (pull_image true, image
unset) emit_prepare_commands returns no sequence at all: the attribute
access on None raises, modelled as none, contradicting the claim that
every state outside the listed empty cases yields the singleton pull
command. -/
theorem claim_C2_counterexample :
    Sarus.emit_prepare_commands Sarus.init = none := rfl

/-- C2 witness: the theorem applied at a concrete Sarus state with an
image that is set and does not start with load/. -/
theorem claim_C2_witness :
    Sarus.emit_prepare_commands { Sarus.init with image := some "repo/img" } =
      some ["sarus pull repo/img"] :=
  (claim_C2.2.1 { Sarus.init with image := some "repo/img" } "repo/img"
    rfl).2 rfl rfl

/-- C3: validate fails with the ContainerError message "no image
specified" exactly when image is None; with image set to any string,
including the empty string, it returns successfully (it is a pure check
and touches no attribute). -/
theorem claim_C3 (st : ContainerPlatform) :
    (st.validate = Except.error (ContainerError.mk "no image specified") ↔
      st.image = none) ∧
    (∀ s : String, st.image = some s → st.validate = Except.ok ()) := by
  constructor
  · constructor
    · intro h
      cases himg : st.image with
      | none => rfl
      | some s => simp [ContainerPlatform.validate, himg] at h
    · intro h
      simp [ContainerPlatform.validate, h]
  · intro s h
    simp [ContainerPlatform.validate, h]

/-- C3 witness: the theorem applied at a state whose image is the empty
string: validate still succeeds. -/
theorem claim_C3_witness :
    ContainerPlatform.validate
        { ContainerPlatform.init with image := some "" } =
      Except.ok () :=
  (claim_C3 { ContainerPlatform.init with image := some "" }).2 "" rfl

/-- C4: for every backend the launch command is the branch selector
applied to the space-join of exactly one mount flag per mount point pair,
in order, in the backend syntax, followed by the backend flag and the
options; and the Docker end-to-end example of the spec. -/
theorem claim_C4 :
    (∀ st : Docker,
      Docker.launch_command st =
        Docker.assemble st (String.intercalate " "
          (st.mount_points.map dockerMountFlag ++ st.options)) ∧
      (st.mount_points.map dockerMountFlag).length =
        st.mount_points.length) ∧
    (∀ st : Sarus,
      Sarus.launch_command st =
        Sarus.assemble st (String.intercalate " "
          (st.mount_points.map sarusMountFlag ++
            (if st.with_mpi then ["--mpi"] else []) ++ st.options)) ∧
      (st.mount_points.map sarusMountFlag).length =
        st.mount_points.length) ∧
    (∀ st : Shifter,
      Shifter.launch_command st =
        Shifter.assemble st (String.intercalate " "
          (st.mount_points.map sarusMountFlag ++
            (if st.with_mpi then ["--mpi"] else []) ++ st.options)) ∧
      (st.mount_points.map sarusMountFlag).length =
        st.mount_points.length) ∧
    (∀ st : Singularity,
      Singularity.launch_command st =
        Singularity.assemble st (String.intercalate " "
          (st.mount_points.map singularityMountFlag ++
            (if st.with_cuda then ["--nv"] else []) ++ st.options)) ∧
      (st.mount_points.map singularityMountFlag).length =
        st.mount_points.length) ∧
    (Docker.emit_prepare_commands
        { Docker.init with
            image := some "ubuntu:20.04"
            command := some "ls /data"
            mount_points := [("/data", "/data")] } =
      ["docker pull ubuntu:20.04"] ∧
     Docker.launch_command
        { Docker.init with
            image := some "ubuntu:20.04"
            command := some "ls /data"
            mount_points := [("/data", "/data")] } =
      "docker run --rm -v \"/data\":\"/data\" ubuntu:20.04 ls /data") := by
  refine ⟨?_, ?_, ?_, ?_, by decide, by decide⟩
  · intro st
    exact ⟨rfl, st.mount_points.length_map dockerMountFlag⟩
  · intro st
    refine ⟨?_, st.mount_points.length_map sarusMountFlag⟩
    cases hm : st.with_mpi <;>
      simp only [Sarus.launch_command, Sarus.assemble, hm] <;> simp <;> rfl
  · intro st
    refine ⟨?_, st.mount_points.length_map sarusMountFlag⟩
    cases hm : st.with_mpi <;>
      simp only [Shifter.launch_command, Shifter.assemble, hm] <;>
      simp <;> rfl
  · intro st
    refine ⟨?_, st.mount_points.length_map singularityMountFlag⟩
    cases hm : st.with_cuda <;>
      simp only [Singularity.launch_command, Singularity.assemble, hm] <;>
      simp <;> rfl

/-- C5: for every backend, with command unset and commands a non-empty
sequence, the launch command wraps the payload as an inner bash -c with
the workdir cd first and the commands joined by semicolon plus space, the
whole inner payload in single quotes; Singularity uses exec here, the
other backends use their run verb. -/
theorem claim_C5 :
    (∀ st : Docker, st.command = none → st.commands ≠ [] →
      Docker.launch_command st =
        "docker run --rm " ++ String.intercalate " "
            (st.mount_points.map dockerMountFlag ++ st.options) ++
          " " ++ pyStr st.image ++ " bash -c \x27cd " ++
          pyStr st.workdir ++ "; " ++
          String.intercalate "; " st.commands ++ "\x27") ∧
    (∀ st : Sarus, st.command = none → st.commands ≠ [] →
      Sarus.launch_command st =
        "sarus run " ++ String.intercalate " "
            (st.mount_points.map sarusMountFlag ++
              (if st.with_mpi then ["--mpi"] else []) ++ st.options) ++
          " " ++ pyStr st.image ++ " bash -c \x27cd " ++
          pyStr st.workdir ++ "; " ++
          String.intercalate "; " st.commands ++ "\x27") ∧
    (∀ st : Shifter, st.command = none → st.commands ≠ [] →
      Shifter.launch_command st =
        "shifter run " ++ String.intercalate " "
            (st.mount_points.map sarusMountFlag ++
              (if st.with_mpi then ["--mpi"] else []) ++ st.options) ++
          " " ++ pyStr st.image ++ " bash -c \x27cd " ++
          pyStr st.workdir ++ "; " ++
          String.intercalate "; " st.commands ++ "\x27") ∧
    (∀ st : Singularity, st.command = none → st.commands ≠ [] →
      Singularity.launch_command st =
        "singularity exec " ++ String.intercalate " "
            (st.mount_points.map singularityMountFlag ++
              (if st.with_cuda then ["--nv"] else []) ++ st.options) ++
          " " ++ pyStr st.image ++ " bash -c \x27cd " ++
          pyStr st.workdir ++ "; " ++
          String.intercalate "; " st.commands ++ "\x27") := by
  refine ⟨?_, ?_, ?_, ?_⟩
  · intro st h1 h2
    rcases List.exists_cons_of_ne_nil h2 with ⟨c, cs, hc⟩
    simp [Docker.launch_command, h1, hc, pyTruthy]
    rfl
  · intro st h1 h2
    rcases List.exists_cons_of_ne_nil h2 with ⟨c, cs, hc⟩
    cases hm : st.with_mpi <;>
      simp [Sarus.launch_command, h1, hc, hm, pyTruthy] <;>
      rfl
  · intro st h1 h2
    rcases List.exists_cons_of_ne_nil h2 with ⟨c, cs, hc⟩
    cases hm : st.with_mpi <;>
      simp [Shifter.launch_command, h1, hc, hm, pyTruthy] <;>
      rfl
  · intro st h1 h2
    rcases List.exists_cons_of_ne_nil h2 with ⟨c, cs, hc⟩
    cases hm : st.with_cuda <;>
      simp [Singularity.launch_command, h1, hc, hm, pyTruthy] <;>
      rfl

/-- C5 witness: the theorem applied at a concrete Docker state with two
commands. -/
theorem claim_C5_witness :
    Docker.launch_command
        { Docker.init with
            image := some "img"
            commands := ["echo a", "echo b"] } =
      "docker run --rm  img bash -c \x27cd /rfm_workdir; echo a; echo b\x27" :=
  (claim_C5.1
    { Docker.init with
        image := some "img"
        commands := ["echo a", "echo b"] } rfl (by decide)).trans (by decide)

/-- C6: Singularity uses the exec subcommand in the command branch and
the commands branch but run in the default branch; Docker, Sarus and
Shifter use their run subcommand in all three branches; and in the
default branch every backend emits the bare run invocation, whose exact
shape carries no inner bash -c wrapper. -/
theorem claim_C6 :
    (∀ st : Singularity,
      (pyTruthy st.command = true →
        hasPrefixStr "singularity exec " (Singularity.launch_command st)) ∧
      (pyTruthy st.command = false → st.commands ≠ [] →
        hasPrefixStr "singularity exec " (Singularity.launch_command st)) ∧
      (pyTruthy st.command = false → st.commands = [] →
        Singularity.launch_command st =
          "singularity run " ++ String.intercalate " "
              (st.mount_points.map singularityMountFlag ++
                (if st.with_cuda then ["--nv"] else []) ++ st.options) ++
            " " ++ pyStr st.image)) ∧
    (∀ st : Docker,
      hasPrefixStr "docker run " (Docker.launch_command st) ∧
      (pyTruthy st.command = false → st.commands = [] →
        Docker.launch_command st =
          "docker run --rm " ++ String.intercalate " "
              (st.mount_points.map dockerMountFlag ++ st.options) ++
            " " ++ pyStr st.image)) ∧
    (∀ st : Sarus,
      hasPrefixStr "sarus run " (Sarus.launch_command st) ∧
      (pyTruthy st.command = false → st.commands = [] →
        Sarus.launch_command st =
          "sarus run " ++ String.intercalate " "
              (st.mount_points.map sarusMountFlag ++
                (if st.with_mpi then ["--mpi"] else []) ++ st.options) ++
            " " ++ pyStr st.image)) ∧
    (∀ st : Shifter,
      hasPrefixStr "shifter run " (Shifter.launch_command st) ∧
      (pyTruthy st.command = false → st.commands = [] →
        Shifter.launch_command st =
          "shifter run " ++ String.intercalate " "
              (st.mount_points.map sarusMountFlag ++
                (if st.with_mpi then ["--mpi"] else []) ++ st.options) ++
            " " ++ pyStr st.image)) := by
  refine ⟨?_, ?_, ?_, ?_⟩
  · intro st
    refine ⟨?_, ?_, ?_⟩
    · intro h
      simp [Singularity.launch_command, h]
      repeat
        first
        | exact hasPrefixStr_base _ _
        | apply hasPrefixStr_append
    · intro h1 h2
      rcases List.exists_cons_of_ne_nil h2 with ⟨c, cs, hc⟩
      simp [Singularity.launch_command, h1, hc]
      repeat
        first
        | exact hasPrefixStr_base _ _
        | apply hasPrefixStr_append
    · intro h1 h2
      cases hm : st.with_cuda <;>
        simp [Singularity.launch_command, h1, h2, hm] <;> rfl
  · intro st
    constructor
    · have hb : ("docker run --rm " : String) = "docker run " ++ "--rm " := by
        decide
      simp only [Docker.launch_command]
      split
      · rw [hb]
        repeat
          first
          | exact hasPrefixStr_base _ _
          | apply hasPrefixStr_append
      · split
        · rw [hb]
          repeat
            first
            | exact hasPrefixStr_base _ _
            | apply hasPrefixStr_append
        · rw [hb]
          repeat
            first
            | exact hasPrefixStr_base _ _
            | apply hasPrefixStr_append
    · intro h1 h2
      simp [Docker.launch_command, h1, h2] <;> rfl
  · intro st
    constructor
    · simp only [Sarus.launch_command]
      split
      · repeat
          first
          | exact hasPrefixStr_base _ _
          | apply hasPrefixStr_append
      · split
        · repeat
            first
            | exact hasPrefixStr_base _ _
            | apply hasPrefixStr_append
        · repeat
            first
            | exact hasPrefixStr_base _ _
            | apply hasPrefixStr_append
    · intro h1 h2
      cases hm : st.with_mpi <;>
        simp [Sarus.launch_command, h1, h2, hm] <;> rfl
  · intro st
    constructor
    · simp only [Shifter.launch_command]
      split
      · repeat
          first
          | exact hasPrefixStr_base _ _
          | apply hasPrefixStr_append
      · split
        · repeat
            first
            | exact hasPrefixStr_base _ _
            | apply hasPrefixStr_append
        · repeat
            first
            | exact hasPrefixStr_base _ _
            | apply hasPrefixStr_append
    · intro h1 h2
      cases hm : st.with_mpi <;>
        simp [Shifter.launch_command, h1, h2, hm] <;> rfl

/-- C6 witness: the theorem applied at a concrete Singularity state in
the default branch with cuda enabled, matching the spec example. -/
theorem claim_C6_witness :
    Singularity.launch_command
        { Singularity.init with
            image := some "img.sif"
            with_cuda := true } =
      "singularity run --nv img.sif" :=
  ((claim_C6.1 { Singularity.init with
      image := some "img.sif"
      with_cuda := true }).2.2 rfl rfl).trans (by decide)

/-- C7: with_mpi true inserts the single token --mpi between the mount
flags and the options of the Sarus and Shifter run options; with_cuda
true inserts --nv there for Singularity; with the flag false the joined
list is just mount flags then options, and the token cannot occur in it
unless it was put into options, since no mount flag can equal it. -/
theorem claim_C7 :
    (∀ st : Sarus,
      (st.with_mpi = true →
        Sarus.launch_command st = Sarus.assemble st (String.intercalate " "
          (st.mount_points.map sarusMountFlag ++ ["--mpi"] ++
            st.options))) ∧
      (st.with_mpi = false →
        Sarus.launch_command st = Sarus.assemble st (String.intercalate " "
          (st.mount_points.map sarusMountFlag ++ st.options))) ∧
      ("--mpi" ∉ st.options →
        "--mpi" ∉ st.mount_points.map sarusMountFlag ++ st.options)) ∧
    (∀ st : Shifter,
      (st.with_mpi = true →
        Shifter.launch_command st =
          Shifter.assemble st (String.intercalate " "
            (st.mount_points.map sarusMountFlag ++ ["--mpi"] ++
              st.options))) ∧
      (st.with_mpi = false →
        Shifter.launch_command st =
          Shifter.assemble st (String.intercalate " "
            (st.mount_points.map sarusMountFlag ++ st.options))) ∧
      ("--mpi" ∉ st.options →
        "--mpi" ∉ st.mount_points.map sarusMountFlag ++ st.options)) ∧
    (∀ st : Singularity,
      (st.with_cuda = true →
        Singularity.launch_command st =
          Singularity.assemble st (String.intercalate " "
            (st.mount_points.map singularityMountFlag ++ ["--nv"] ++
              st.options))) ∧
      (st.with_cuda = false →
        Singularity.launch_command st =
          Singularity.assemble st (String.intercalate " "
            (st.mount_points.map singularityMountFlag ++ st.options))) ∧
      ("--nv" ∉ st.options →
        "--nv" ∉ st.mount_points.map singularityMountFlag ++
          st.options)) := by
  refine ⟨?_, ?_, ?_⟩
  · intro st
    refine ⟨?_, ?_, ?_⟩
    · intro h
      simp only [Sarus.launch_command, Sarus.assemble, h] <;> simp <;> rfl
    · intro h
      simp only [Sarus.launch_command, Sarus.assemble, h] <;> simp <;> rfl
    · intro hopt hmem
      rcases List.mem_append.mp hmem with hm | hm
      · rcases List.mem_map.mp hm with ⟨mp, _, heq⟩
        exact sarusMountFlag_ne_mpi mp heq
      · exact hopt hm
  · intro st
    refine ⟨?_, ?_, ?_⟩
    · intro h
      simp only [Shifter.launch_command, Shifter.assemble, h] <;>
        simp <;> rfl
    · intro h
      simp only [Shifter.launch_command, Shifter.assemble, h] <;>
        simp <;> rfl
    · intro hopt hmem
      rcases List.mem_append.mp hmem with hm | hm
      · rcases List.mem_map.mp hm with ⟨mp, _, heq⟩
        exact sarusMountFlag_ne_mpi mp heq
      · exact hopt hm
  · intro st
    refine ⟨?_, ?_, ?_⟩
    · intro h
      simp only [Singularity.launch_command, Singularity.assemble, h] <;>
        simp <;> rfl
    · intro h
      simp only [Singularity.launch_command, Singularity.assemble, h] <;>
        simp <;> rfl
    · intro hopt hmem
      rcases List.mem_append.mp hmem with hm | hm
      · rcases List.mem_map.mp hm with ⟨mp, _, heq⟩
        exact singularityMountFlag_ne_nv mp heq
      · exact hopt hm

/-- C7 witness: the theorem applied at a concrete Sarus state with
with_mpi enabled. -/
theorem claim_C7_witness :
    Sarus.launch_command
        { Sarus.init with
            image := some "img"
            with_mpi := true } =
      "sarus run --mpi img" :=
  ((claim_C7.1 { Sarus.init with
      image := some "img"
      with_mpi := true }).1 rfl).trans (by decide)

/-- C8 (amended): a string naming a backend class resolves, case
sensitively, to a freshly constructed default instance of that backend;
a string naming no module global fails with the InvalidValue-kind error
"unknown container platform: <name>"; but a string naming a non-backend
module global does not raise KeyError, so it bypasses that handler and
fails later with a TypeError-kind failure instead; an already-constructed
backend instance is accepted unchanged after the type check. -/
theorem claim_C8 :
    (ContainerPlatformField.set_from_string "Docker" =
        Except.ok (PlatformInstance.docker Docker.init) ∧
      ContainerPlatformField.set_from_string "Sarus" =
        Except.ok (PlatformInstance.sarus Sarus.init) ∧
      ContainerPlatformField.set_from_string "Shifter" =
        Except.ok (PlatformInstance.shifter Shifter.init) ∧
      ContainerPlatformField.set_from_string "Singularity" =
        Except.ok (PlatformInstance.singularity Singularity.init)) ∧
    (∀ value : String, value ∉ moduleGlobals →
      ContainerPlatformField.set_from_string value =
        Except.error (SetPlatformError.invalidValue
          ("unknown container platform: " ++ value))) ∧
    (∀ value : String, value ∈ moduleGlobals →
      value ≠ "Docker" → value ≠ "Sarus" → value ≠ "Shifter" →
      value ≠ "Singularity" →
      ContainerPlatformField.set_from_string value =
        Except.error SetPlatformError.externalTypeError) ∧
    (∀ p : PlatformInstance,
      ContainerPlatformField.set_from_instance p = Except.ok p) := by
  refine ⟨⟨rfl, rfl, rfl, rfl⟩, ?_, ?_, fun p => rfl⟩
  · intro value hv
    have h1 : value ≠ "Docker" := by rintro rfl; exact hv (by decide)
    have h2 : value ≠ "Sarus" := by rintro rfl; exact hv (by decide)
    have h3 : value ≠ "Shifter" := by rintro rfl; exact hv (by decide)
    have h4 : value ≠ "Singularity" := by rintro rfl; exact hv (by decide)
    simp [ContainerPlatformField.set_from_string, backendFromName,
      h1, h2, h3, h4, hv]
  · intro value hmem h1 h2 h3 h4
    fin_cases hmem <;>
      first
      | exact absurd rfl h1
      | exact absurd rfl h2
      | exact absurd rfl h3
      | exact absurd rfl h4
      | rfl

/-- C8 counterexample: the string "ContainerError" does not name a
backend, yet assigning it does not produce the InvalidValue failure
"unknown container platform: ContainerError": the globals() lookup
succeeds and the failure is of the external TypeError kind. -/
theorem claim_C8_counterexample :
    ContainerPlatformField.set_from_string "ContainerError" ≠
      Except.error (SetPlatformError.invalidValue
        "unknown container platform: ContainerError") := by
  intro h
  have h2 : ContainerPlatformField.set_from_string "ContainerError" =
      Except.error SetPlatformError.externalTypeError := rfl
  rw [h2] at h
  simp at h

/-- C8 witness: the theorem applied at the unknown name Foo. -/
theorem claim_C8_witness :
    ContainerPlatformField.set_from_string "Foo" =
      Except.error (SetPlatformError.invalidValue
        "unknown container platform: Foo") :=
  (claim_C8.2.1 "Foo" (by decide)).trans rfl

/-- C9: Sarus and Shifter emit_prepare_commands evaluate the startswith
attribute access whenever pull_image is true, so the call fails exactly
when pull_image is true and image is unset; a state passing validate
never fails; Docker never fails and simply interpolates a None image as
the text None into its pull command. -/
theorem claim_C9 :
    (∀ st : Sarus,
      (Sarus.emit_prepare_commands st = none ↔
        st.pull_image = true ∧ st.image = none) ∧
      (st.toContainerPlatform.validate = Except.ok () →
        Sarus.emit_prepare_commands st ≠ none)) ∧
    (∀ st : Shifter,
      (Shifter.emit_prepare_commands st = none ↔
        st.pull_image = true ∧ st.image = none) ∧
      (st.toContainerPlatform.validate = Except.ok () →
        Shifter.emit_prepare_commands st ≠ none)) ∧
    (∀ st : Docker, st.image = none → st.pull_image = true →
      Docker.emit_prepare_commands st = ["docker pull None"]) := by
  refine ⟨?_, ?_, ?_⟩
  · intro st
    constructor
    · cases hp : st.pull_image
      · simp [Sarus.emit_prepare_commands, hp]
      · cases himg : st.image with
        | none => simp [Sarus.emit_prepare_commands, hp, himg]
        | some img =>
          cases hs : strStartsWith img "load/" <;>
            simp [Sarus.emit_prepare_commands, hp, himg, hs]
    · intro hv
      cases himg : st.image with
      | none =>
        simp [ContainerPlatform.validate, himg] at hv
      | some img =>
        cases hp : st.pull_image
        · simp [Sarus.emit_prepare_commands, hp]
        · cases hs : strStartsWith img "load/" <;>
            simp [Sarus.emit_prepare_commands, hp, himg, hs]
  · intro st
    constructor
    · cases hp : st.pull_image
      · simp [Shifter.emit_prepare_commands, hp]
      · cases himg : st.image with
        | none => simp [Shifter.emit_prepare_commands, hp, himg]
        | some img =>
          cases hs : strStartsWith img "load/" <;>
            simp [Shifter.emit_prepare_commands, hp, himg, hs]
    · intro hv
      cases himg : st.image with
      | none =>
        simp [ContainerPlatform.validate, himg] at hv
      | some img =>
        cases hp : st.pull_image
        · simp [Shifter.emit_prepare_commands, hp]
        · cases hs : strStartsWith img "load/" <;>
            simp [Shifter.emit_prepare_commands, hp, himg, hs]
  · intro st h1 h2
    simp [Docker.emit_prepare_commands, h1, h2] <;> decide

/-- C9 witness: the theorem applied at a Sarus state that passes
validate: the prepare commands are well defined. -/
theorem claim_C9_witness :
    Sarus.emit_prepare_commands { Sarus.init with image := some "img" } ≠
      none :=
  (claim_C9.1 { Sarus.init with image := some "img" }).2 rfl

/-- C10: with mount_points and options empty and the backend flag false,
the joined run options string is empty but still interpolated, so every
launch command carries two consecutive spaces between the runtime verb
and the image. -/
theorem claim_C10 :
    (∀ st : Docker, st.mount_points = [] → st.options = [] →
      hasPrefixStr ("docker run --rm" ++ "  ") (Docker.launch_command st)) ∧
    (∀ st : Sarus, st.mount_points = [] → st.options = [] →
      st.with_mpi = false →
      hasPrefixStr ("sarus run" ++ "  ") (Sarus.launch_command st)) ∧
    (∀ st : Shifter, st.mount_points = [] → st.options = [] →
      st.with_mpi = false →
      hasPrefixStr ("shifter run" ++ "  ") (Shifter.launch_command st)) ∧
    (∀ st : Singularity, st.mount_points = [] → st.options = [] →
      st.with_cuda = false →
      (pyTruthy st.command = false → st.commands = [] →
        hasPrefixStr ("singularity run" ++ "  ")
          (Singularity.launch_command st)) ∧
      (pyTruthy st.command = true ∨ st.commands ≠ [] →
        hasPrefixStr ("singularity exec" ++ "  ")
          (Singularity.launch_command st))) := by
  refine ⟨?_, ?_, ?_, ?_⟩
  · intro st h1 h2
    simp only [Docker.launch_command, h1, h2]
    split
    · repeat
        first
        | exact ⟨"", by decide⟩
        | apply hasPrefixStr_append
    · split
      · repeat
          first
          | exact ⟨"", by decide⟩
          | apply hasPrefixStr_append
      · repeat
          first
          | exact ⟨"", by decide⟩
          | apply hasPrefixStr_append
  · intro st h1 h2 h3
    simp only [Sarus.launch_command, h1, h2, h3]
    split
    · repeat
        first
        | exact ⟨"", by decide⟩
        | apply hasPrefixStr_append
    · split
      · repeat
          first
          | exact ⟨"", by decide⟩
          | apply hasPrefixStr_append
      · repeat
          first
          | exact ⟨"", by decide⟩
          | apply hasPrefixStr_append
  · intro st h1 h2 h3
    simp only [Shifter.launch_command, h1, h2, h3]
    split
    · repeat
        first
        | exact ⟨"", by decide⟩
        | apply hasPrefixStr_append
    · split
      · repeat
          first
          | exact ⟨"", by decide⟩
          | apply hasPrefixStr_append
      · repeat
          first
          | exact ⟨"", by decide⟩
          | apply hasPrefixStr_append
  · intro st h1 h2 h3
    constructor
    · intro hc hcs
      simp only [Singularity.launch_command, h1, h2, h3, hc, hcs]
      repeat
        first
        | exact ⟨"", by decide⟩
        | apply hasPrefixStr_append
    · intro hd
      cases hc : pyTruthy st.command
      · have hne : st.commands ≠ [] := by
          rcases hd with h | h
          · rw [hc] at h
            exact absurd h (by simp)
          · exact h
        rcases List.exists_cons_of_ne_nil hne with ⟨c, cs, hcc⟩
        simp only [Singularity.launch_command, h1, h2, h3, hc, hcc]
        repeat
          first
          | exact ⟨"", by decide⟩
          | apply hasPrefixStr_append
      · simp only [Singularity.launch_command, h1, h2, h3, hc]
        repeat
          first
          | exact ⟨"", by decide⟩
          | apply hasPrefixStr_append

/-- C10 witness: the theorem applied at a default-branch Singularity
state: the launch command has the double space after the verb. -/
theorem claim_C10_witness :
    hasPrefixStr ("singularity run" ++ "  ")
      (Singularity.launch_command
        { Singularity.init with image := some "img.sif" }) :=
  ((claim_C10.2.2.2 { Singularity.init with image := some "img.sif" }
    rfl rfl rfl).1) rfl rfl

end Containers
